import Mathlib

/-!
Verification of the samwise controller core against its specification.

The definitions below are a shallow embedding of the Rust sources:

* src/controller/src/id.rs        — DeviceId, TargetId
* src/controller/src/agent.rs     — AgentStatus, AgentConnection.ping
* src/controller/src/wake.rs      — build_magic_packet, send_magic_packet
* src/controller/src/device.rs    — State, Action, Handler (handle_run,
  handle_reboot, configure, boot, await helpers), state_poller, the
  per-device action channel created in Device.start
* src/controller/src/server.rs    — the run route of the HTTP surface

Effectful Rust code is embedded as pure functions that take the outcomes of
external operations (agent replies, file-system results, RPC results) as an
explicit environment and return, next to the Rust result value, the ordered
list of side effects the code performs.
-/

namespace Samwise

/-! ## Identifier types, from src/controller/src/id.rs -/

/-- Identifier referring to a particular device (id.rs). A plain wrapper
around a string; the constructor performs no validation. -/
structure DeviceId where
  val : String
deriving DecidableEq, Repr

/-- Embeds id.rs DeviceId.new: converts the argument into the inner string
with no further checks. -/
def DeviceId.new (s : String) : DeviceId := ⟨s⟩

/-- Embeds id.rs DeviceId.as_string. -/
def DeviceId.as_string (d : DeviceId) : String := d.val

/-- Identifier for a bootable target (id.rs). -/
structure TargetId where
  val : String
deriving DecidableEq, Repr

/-- Embeds id.rs TargetId.new: converts the argument into the inner string
with no further checks. -/
def TargetId.new (s : String) : TargetId := ⟨s⟩

/-- Embeds id.rs TargetId.as_string. -/
def TargetId.as_string (t : TargetId) : String := t.val

/-! ## Agent RPC client, from src/controller/src/agent.rs -/

/-- Result of pinging an agent (agent.rs AgentStatus). -/
inductive AgentStatus where
  | Active (target : TargetId)
  | Inactive
deriving DecidableEq, Repr

/-- Reply payload of the Ping RPC (samwise_proto PingResponse). -/
structure PingResponse where
  current_target : String
deriving DecidableEq, Repr

/-- RPC-level failure of a tonic call: timeout, connection failure, or a
non-OK status from the server. -/
inductive RpcError where
  | timeout
  | connectFailed
  | status (code : Nat) (message : String)
deriving DecidableEq, Repr

namespace AgentConnection

/-- Embeds agent.rs AgentConnection.ping. The argument is the outcome of the
underlying tonic call; the function matches on it exactly as the Rust match
does: an Ok reply becomes Active of the decoded current_target, any error is
logged and collapsed to Inactive. The Lean return type AgentStatus (rather
than Except) reflects that the Rust function returns AgentStatus, never an
error. -/
def ping (reply : Except RpcError PingResponse) : AgentStatus :=
  match reply with
  | Except.ok response => AgentStatus.Active (TargetId.new response.current_target)
  | Except.error _ => AgentStatus.Inactive

end AgentConnection

/-! ## Wake-on-LAN sender, from src/controller/src/wake.rs -/

/-- Size of a magic packet, including Ethernet headers (wake.rs
MAGIC_PACKET_SIZE). -/
def MAGIC_PACKET_SIZE : Nat := 116

/-- A MAC address as six bytes, mirroring pnet MacAddr which is a tuple
struct of six u8 fields accessed as .0 through .5. -/
structure MacAddr where
  b0 : Nat
  b1 : Nat
  b2 : Nat
  b3 : Nat
  b4 : Nat
  b5 : Nat
deriving DecidableEq, Repr

/-- The six bytes of a MAC address in order. -/
def MacAddr.bytes (m : MacAddr) : List Nat := [m.b0, m.b1, m.b2, m.b3, m.b4, m.b5]

/-- EtherType 0x0842 (pnet EtherTypes.WakeOnLan), set by
packet.set_ethertype in build_magic_packet. -/
def etherTypeWakeOnLan : Nat := 0x0842

/-- A 16-bit EtherType as the two big-endian bytes that
MutableEthernetPacket.set_ethertype stores at frame offsets 12 and 13. -/
def ethertypeBytes (et : Nat) : List Nat := [et / 256 % 256, et % 256]

/-- The 102-byte Ethernet payload written by build_magic_packet: the loop
over payload[0..6] stores 0xff six times, then the loop for i in 1..17
stores the six destination bytes at payload offsets i*6 .. i*6+5, i.e. 16
repetitions of the destination MAC. -/
def magicPayload (dest : MacAddr) : List Nat :=
  List.replicate 6 0xff ++ (List.replicate 16 (MacAddr.bytes dest)).flatten

/-- Embeds wake.rs build_magic_packet as the byte list it writes into its
116-byte buffer: set_destination fills bytes 0..6, set_source bytes 6..12,
set_ethertype bytes 12..14 big-endian, and the payload occupies bytes
14..116. -/
def build_magic_packet (source dest : MacAddr) : List Nat :=
  MacAddr.bytes dest ++ MacAddr.bytes source ++ ethertypeBytes etherTypeWakeOnLan
    ++ magicPayload dest

/-- Embeds wake.rs WolSender.send_magic_packet: it invokes
datalink build_and_send with packet count 1 and size MAGIC_PACKET_SIZE,
handing exactly one frame, built by build_magic_packet from the cached
source (interface) address and the destination, to the datalink channel.
The result is the pair (number of packets, frame bytes). -/
def send_magic_packet (source dest : MacAddr) : Nat × List Nat :=
  (1, build_magic_packet source dest)

/-! ## Device state machine, from src/controller/src/device.rs -/

/-- Current state of a device (device.rs State). -/
inductive State where
  | Unknown
  | Running (target : TargetId)
  | Off
deriving DecidableEq, Repr

/-- Command representing the desired state of a device (device.rs Action). -/
inductive Action where
  | Reboot
  | Suspend
  | ShutDown
  | Run (target : TargetId)
deriving DecidableEq, Repr

/-- Embeds the Display implementation for Action in device.rs. -/
def Action.display : Action → String
  | Action.Reboot => "reboot"
  | Action.Suspend => "suspend"
  | Action.ShutDown => "shut down"
  | Action.Run target => "run " ++ target.as_string

/-- Modelled from the spec: TargetConfiguration, the per-target table of the
controller configuration. The config module revision in the sources predates
the device module and lacks this type; device.rs calls its menu_entry
accessor, and the spec defines targets as a mapping from TargetId to a table
with a menu_entry string. -/
structure TargetConfiguration where
  menu_entry : String
deriving DecidableEq, Repr

/-- Name of the GRUB environment variable to set with the desired menu entry
(device.rs GRUB_MENU_ENTRY_VAR). -/
def GRUB_MENU_ENTRY_VAR : String := "samwise_entry"

/-- The exact string that Handler.configure writes into the GRUB config
file, from the format call in device.rs: set VAR="entry" then export VAR,
each line ended by a line feed. -/
def grubConfigContents (entry : String) : String :=
  "set " ++ GRUB_MENU_ENTRY_VAR ++ "=\"" ++ entry ++ "\"\nexport "
    ++ GRUB_MENU_ENTRY_VAR ++ "\n"

/-- The predicate a Handler await waits for, from the three await helpers in
device.rs. -/
inductive AwaitKind where
  | runningTarget (target : TargetId)
  | runningAny
  | off
deriving DecidableEq, Repr

/-- Observable side effect of the action handler, in the order the handler
performs them. -/
inductive Effect where
  | pingAgent (result : AgentStatus)
  | openConfig (path : String) (write truncate create : Bool)
  | writeConfig (path : String) (contents : String)
  | rebootRpc
  | wol (interface : String) (mac : MacAddr)
  | awaitState (kind : AwaitKind)
deriving DecidableEq, Repr

/-- Errors the handler can return, mirroring the anyhow errors raised in
device.rs. -/
inductive HandlerError where
  | unknownTarget (target : TargetId)
  | openFailed (path : String)
  | writeFailed (path : String)
  | rebootFailed
  | wakeFailed (device : DeviceId)
  | timeout
  | stateChannelClosed
deriving DecidableEq, Repr

/-- How an await over the state channel ends: the desired state is reached,
the five-minute deadline fires, or the channel closes. -/
inductive AwaitOutcome where
  | reached
  | timedOut
  | channelClosed
deriving DecidableEq, Repr

/-- Outcomes of the external operations one action handling can perform.
The handler is deterministic given these inputs. -/
structure Env where
  ping : AgentStatus
  openOk : Bool
  writeOk : Bool
  rebootOk : Bool
  wakeOk : Bool
  awaitOutcome : AwaitOutcome
deriving DecidableEq, Repr

/-- The fields of device.rs Handler that the handling logic reads. The
targets map is a HashMap from target-name strings to TargetConfiguration,
embedded as an association list. -/
structure Handler where
  id : DeviceId
  mac_address : MacAddr
  network_interface : String
  targets : List (String × TargetConfiguration)
  grub_config : String
deriving DecidableEq, Repr

/-- Embeds Handler.configure from device.rs. Looks the target up in the
targets map; if absent, bails with an unknown-target error and performs no
file operation. Otherwise it opens the GRUB config file with write and
truncate set and create unset (OpenOptions.new().write(true).truncate(true);
the std default leaves create false so a missing file is an error), then
writes the two-line contents. The effect list records the attempted open and
write in order; the environment decides whether each file operation
succeeds. -/
def configure (h : Handler) (env : Env) (target : TargetId) :
    Except HandlerError Unit × List Effect :=
  match h.targets.lookup target.as_string with
  | some tc =>
    let openEff := Effect.openConfig h.grub_config true true false
    if env.openOk then
      let writeEff := Effect.writeConfig h.grub_config (grubConfigContents tc.menu_entry)
      if env.writeOk then
        (Except.ok (), [openEff, writeEff])
      else
        (Except.error (HandlerError.writeFailed h.grub_config), [openEff, writeEff])
    else
      (Except.error (HandlerError.openFailed h.grub_config), [openEff])
  | none => (Except.error (HandlerError.unknownTarget target), [])

/-- Embeds Handler.boot from device.rs: wake the device over Wake-on-LAN on
the handler's interface at its MAC address. -/
def boot (h : Handler) (env : Env) : Except HandlerError Unit × List Effect :=
  (if env.wakeOk then Except.ok () else Except.error (HandlerError.wakeFailed h.id),
   [Effect.wol h.network_interface h.mac_address])

/-- Embeds the agent.reboot() call made by the handler (agent.rs reboot). -/
def agentReboot (env : Env) : Except HandlerError Unit × List Effect :=
  (if env.rebootOk then Except.ok () else Except.error HandlerError.rebootFailed,
   [Effect.rebootRpc])

/-- Result of an await over the state channel as determined by the
environment, from Handler.await_state in device.rs: a timeout produces the
timed-out error, a closed channel the state-channel-closed error. -/
def awaitResult (env : Env) : Except HandlerError Unit :=
  match env.awaitOutcome with
  | AwaitOutcome.reached => Except.ok ()
  | AwaitOutcome.timedOut => Except.error HandlerError.timeout
  | AwaitOutcome.channelClosed => Except.error HandlerError.stateChannelClosed

/-- Embeds Handler.await_running_target: begin awaiting the state channel
for the device to run the given target. -/
def await_running_target (env : Env) (target : TargetId) :
    Except HandlerError Unit × List Effect :=
  (awaitResult env, [Effect.awaitState (AwaitKind.runningTarget target)])

/-- Embeds Handler.await_running: begin awaiting any running state. -/
def await_running (env : Env) : Except HandlerError Unit × List Effect :=
  (awaitResult env, [Effect.awaitState AwaitKind.runningAny])

/-- Embeds Handler.handle_run from device.rs. The handler first pings the
agent; if the device already runs the requested target the action is a
no-op. If another target is active, it configures the bootloader, asks the
agent to reboot, then awaits the requested target. If the device is
inactive, it configures the bootloader, boots via Wake-on-LAN, then awaits
the requested target. Each fallible step propagates its error, cutting the
rest of the sequence, as the Rust question-mark operator does. -/
def handle_run (h : Handler) (env : Env) (target : TargetId) :
    Except HandlerError Unit × List Effect :=
  let pingEff := Effect.pingAgent env.ping
  match env.ping with
  | AgentStatus.Active active_target =>
    if active_target = target then
      (Except.ok (), [pingEff])
    else
      match configure h env target with
      | (Except.error e, t1) => (Except.error e, pingEff :: t1)
      | (Except.ok _, t1) =>
        match agentReboot env with
        | (Except.error e, t2) => (Except.error e, pingEff :: (t1 ++ t2))
        | (Except.ok _, t2) =>
          match await_running_target env target with
          | (r3, t3) => (r3, pingEff :: (t1 ++ t2 ++ t3))
  | AgentStatus.Inactive =>
    match configure h env target with
    | (Except.error e, t1) => (Except.error e, pingEff :: t1)
    | (Except.ok _, t1) =>
      match boot h env with
      | (Except.error e, t2) => (Except.error e, pingEff :: (t1 ++ t2))
      | (Except.ok _, t2) =>
        match await_running_target env target with
        | (r3, t3) => (r3, pingEff :: (t1 ++ t2 ++ t3))

/-- Embeds Handler.handle_reboot from device.rs. After the initial ping: if
a target is active, ask the agent to reboot and await that same target; if
inactive, boot via Wake-on-LAN and await any running target. -/
def handle_reboot (h : Handler) (env : Env) :
    Except HandlerError Unit × List Effect :=
  let pingEff := Effect.pingAgent env.ping
  match env.ping with
  | AgentStatus.Active target =>
    match agentReboot env with
    | (Except.error e, t2) => (Except.error e, pingEff :: t2)
    | (Except.ok _, t2) =>
      match await_running_target env target with
      | (r3, t3) => (r3, pingEff :: (t2 ++ t3))
  | AgentStatus.Inactive =>
    match boot h env with
    | (Except.error e, t2) => (Except.error e, pingEff :: t2)
    | (Except.ok _, t2) =>
      match await_running env with
      | (r3, t3) => (r3, pingEff :: (t2 ++ t3))

/-! ## State poller, from device.rs state_poller -/

/-- The state the poller publishes for one ping result, from the match in
state_poller: Active maps to Running, Inactive to Off. -/
def poller_state (status : AgentStatus) : State :=
  match status with
  | AgentStatus.Active target => State.Running target
  | AgentStatus.Inactive => State.Off

/-- Embeds the publications of state_poller over its lifetime: one per tick,
each obtained from that tick's ping result by poller_state. The initial
Unknown value of the watch channel is set by watch.channel in Device.start,
not published by the poller. -/
def state_poller (pings : List AgentStatus) : List State :=
  pings.map poller_state

/-! ## Action channel, from device.rs Device.start and Device.action -/

/-- Error returned by a failed non-blocking send on a bounded tokio mpsc
channel: the queue is full, or all receivers are gone. -/
inductive TrySendError where
  | full
  | closed
deriving DecidableEq, Repr

/-- A bounded tokio mpsc channel as its capacity and current queue. -/
structure ActionChannel where
  capacity : Nat
  queue : List Action
deriving DecidableEq, Repr

/-- Embeds try_send on an open bounded mpsc channel, used by Device.action:
if the queue has room the action is appended, otherwise the call fails
immediately with a full error and the channel is unchanged. -/
def ActionChannel.trySend (c : ActionChannel) (a : Action) :
    Except TrySendError ActionChannel :=
  if c.queue.length < c.capacity then
    Except.ok { c with queue := c.queue ++ [a] }
  else
    Except.error TrySendError.full

/-- The action channel as created in Device.start by mpsc.channel(1):
capacity one, initially empty. -/
def newActionChannel : ActionChannel := { capacity := 1, queue := [] }

/-- Phase of the handler task in Handler.process: blocked on recv, or
handling one popped action. -/
inductive HandlerPhase where
  | idle
  | handling (a : Action)
deriving DecidableEq, Repr

/-- One device's action channel together with its handler task's phase. -/
structure DeviceSystem where
  chan : ActionChannel
  phase : HandlerPhase
deriving DecidableEq, Repr

/-- Interleaved steps of the clients and the handler task around the action
channel: a client submits via try_send (Device.action); the idle handler
pops the next queued action (the recv in Handler.process), freeing the
queue slot; the handler finishes the action and returns to recv. -/
inductive SysStep : DeviceSystem → DeviceSystem → Prop where
  | submit (s : DeviceSystem) (a : Action) (chan : ActionChannel) :
      s.chan.trySend a = Except.ok chan → SysStep s ⟨chan, s.phase⟩
  | pop (s : DeviceSystem) (a : Action) (rest : List Action) :
      s.phase = HandlerPhase.idle → s.chan.queue = a :: rest →
      SysStep s ⟨{ s.chan with queue := rest }, HandlerPhase.handling a⟩
  | finish (s : DeviceSystem) (a : Action) :
      s.phase = HandlerPhase.handling a → SysStep s ⟨s.chan, HandlerPhase.idle⟩

/-- An action is in flight when it has been submitted but the handler has
not completed it: it is still queued, or the handler is handling it. -/
def inFlight (a : Action) (s : DeviceSystem) : Prop :=
  a ∈ s.chan.queue ∨ s.phase = HandlerPhase.handling a

/-! ## HTTP run route, from src/controller/src/server.rs -/

/-- What the run route reads of a Device handle: its action channel, and
(for stating claims about targets) the target map of its configuration. -/
structure DeviceEntry where
  chan : ActionChannel
  targets : List (String × TargetConfiguration)
deriving DecidableEq, Repr

/-- Embeds the device-lookup filter of serve in server.rs: the path
parameter is wrapped by DeviceId.new and looked up in the device map; a
miss becomes a not-found rejection. The map is embedded as an association
list keyed by the id string. -/
def lookupDevice (devices : List (String × DeviceEntry)) (deviceId : String) :
    Option DeviceEntry :=
  devices.lookup deviceId

/-- A JSON HTTP reply of the action surface: either the success body with
its device and action display string, or the error body produced by
handle_error with its status code and message. -/
inductive HttpResponse where
  | success (status : Nat) (device : String) (action : String)
  | failure (status : Nat) (message : String)
deriving DecidableEq, Repr

/-- Embeds the run route of serve in server.rs. An unknown device rejects
with not-found, which handle_error renders as 404. Otherwise the route
submits Run(TargetId.new(target)) with Device.action, a non-blocking
try_send: on success it replies with action_success (HTTP 200 and the
display form of the action); on failure the ActionFailed rejection is
rendered by handle_error as 503. The target string is never checked against
the target map here. -/
def run_route (devices : List (String × DeviceEntry)) (deviceId : String)
    (requestTarget : String) : HttpResponse :=
  match lookupDevice devices deviceId with
  | none => HttpResponse.failure 404 "Not found"
  | some entry =>
    let action := Action.Run (TargetId.new requestTarget)
    match entry.chan.trySend action with
    | Except.ok _ => HttpResponse.success 200 deviceId (Action.display action)
    | Except.error _ =>
        HttpResponse.failure 503 ("Operation on " ++ deviceId ++ " failed")

/-! ## Trace-ordering helpers -/

/-- Whether an effect is a transport command: a reboot RPC or a Wake-on-LAN
packet. -/
def Effect.isTransport : Effect → Bool
  | Effect.rebootRpc => true
  | Effect.wol _ _ => true
  | _ => false

/-- Whether an effect begins an await of the observed state. -/
def Effect.isAwait : Effect → Bool
  | Effect.awaitState _ => true
  | _ => false

/-- Every effect satisfying p occurs strictly before every effect satisfying
q in the trace: scanning left to right, from the first q-effect onwards no
p-effect may occur. -/
def effBefore (p q : Effect → Bool) : List Effect → Bool
  | [] => true
  | e :: rest =>
    if q e then (!p e) && rest.all (fun x => !p x) else effBefore p q rest

/-- Every transport effect in the trace is strictly preceded by the given
effect w: scanning left to right, a transport seen before w is a
violation; once w is seen, all later transports are fine. -/
def transportsPreceded (w : Effect) : List Effect → Bool
  | [] => true
  | e :: rest =>
    if e = w then true
    else if e.isTransport then false
    else transportsPreceded w rest

/-- The config write that a Run(target) action must place before any
transport: on a mapped target, the write of that target's menu entry to the
GRUB config file precedes every transport; on an unmapped target, no
transport may occur at all. -/
def runWriteOk (h : Handler) (target : TargetId) (trace : List Effect) : Bool :=
  match h.targets.lookup target.as_string with
  | some tc =>
      transportsPreceded
        (Effect.writeConfig h.grub_config (grubConfigContents tc.menu_entry)) trace
  | none => trace.all (fun e => !e.isTransport)

/-- Helper: the effects of configure are only file operations, never a
transport or an await. -/
lemma configure_trace_clean (h : Handler) (env : Env) (target : TargetId) :
    ((configure h env target).2.all
      (fun x => !x.isTransport && !x.isAwait)) = true := by
  obtain ⟨ping, openOk, writeOk, rebootOk, wakeOk, awaitOutcome⟩ := env
  cases hl : h.targets.lookup target.as_string <;>
    cases openOk <;> cases writeOk <;>
      simp [configure, hl, Effect.isTransport, Effect.isAwait]

/-! ## Theorems for claims C2, C5, C9 -/

/-- C2: for every source MAC and destination MAC, the Wake-on-LAN frame the
sender builds is exactly 116 bytes; bytes 12-13 are 0x08 0x42; bytes 0..6
are the target MAC (destination field); bytes 6..12 are the interface MAC
(source field); bytes 14..20 are 0xFF; bytes 20..116 are the target MAC
repeated 16 times; and exactly one such frame is handed to the datalink
channel per wake call. -/
theorem c2_magic_packet_format (source dest : MacAddr) :
    (build_magic_packet source dest).length = MAGIC_PACKET_SIZE
    ∧ (build_magic_packet source dest).take 6 = MacAddr.bytes dest
    ∧ ((build_magic_packet source dest).drop 6).take 6 = MacAddr.bytes source
    ∧ ((build_magic_packet source dest).drop 12).take 2 = [0x08, 0x42]
    ∧ ((build_magic_packet source dest).drop 14).take 6 = List.replicate 6 0xff
    ∧ (build_magic_packet source dest).drop 20
        = (List.replicate 16 (MacAddr.bytes dest)).flatten
    ∧ (send_magic_packet source dest).1 = 1
    ∧ (send_magic_packet source dest).2 = build_magic_packet source dest := by
  refine ⟨rfl, rfl, rfl, rfl, rfl, rfl, rfl, rfl⟩

/-- C5: the ping operation of the Agent RPC client returns an AgentStatus
for every possible reply (it cannot return an error: its type is total), and
its result is determined by the reply alone: a successful reply r yields
Active of the TargetId decoded from the current_target field of r, and every
failed RPC (timeout, connect failure, non-OK status) yields Inactive. -/
theorem c5_ping_total (reply : Except RpcError PingResponse) :
    (∀ r : PingResponse, reply = Except.ok r →
        AgentConnection.ping reply = AgentStatus.Active (TargetId.new r.current_target))
    ∧ (∀ e : RpcError, reply = Except.error e →
        AgentConnection.ping reply = AgentStatus.Inactive) := by
  constructor
  · intro r hr
    subst hr
    rfl
  · intro e he
    subst he
    rfl

/-- Witness for c5_ping_total at two concrete replies. -/
theorem c5_ping_total_witness :
    AgentConnection.ping (Except.ok ⟨"ubuntu"⟩) = AgentStatus.Active (TargetId.new "ubuntu")
    ∧ AgentConnection.ping (Except.error RpcError.timeout) = AgentStatus.Inactive :=
  ⟨(c5_ping_total (Except.ok ⟨"ubuntu"⟩)).1 ⟨"ubuntu"⟩ rfl,
   (c5_ping_total (Except.error RpcError.timeout)).2 RpcError.timeout rfl⟩

/-- C9 as stated is false on the code: DeviceId.new in id.rs performs no
validation and is total, so constructing a DeviceId from the string
"my-desktop", which contains the non-alphanumeric character that the claim
says must be rejected, produces a value instead of failing. The string
"my-desktop" is even the example given in the doc comment of DeviceId in
id.rs. -/
theorem c9_counterexample :
    ("my-desktop".data.any (fun c => !c.isAlphanum) = true)
    ∧ DeviceId.new "my-desktop" = ⟨"my-desktop"⟩
    ∧ (DeviceId.new "my-desktop").as_string = "my-desktop" := by
  refine ⟨by decide, rfl, rfl⟩

/-- C9 amended: DeviceId construction performs no validation at all. For
every string, including the empty string and strings containing characters
outside A-Za-z0-9, DeviceId.new produces a DeviceId wrapping exactly that
string. -/
theorem c9_no_validation (s : String) :
    DeviceId.new s = ⟨s⟩ ∧ (DeviceId.new s).as_string = s :=
  ⟨rfl, rfl⟩

/-! ## Theorems for claims about the action handler (C1, C3, C10) -/

/-- Helper: in every trace of handle_run, the config write of the
requested target's menu entry precedes every transport command. -/
lemma run_write_before_transport (h : Handler) (env : Env) (target : TargetId) :
    runWriteOk h target (handle_run h env target).2 = true := by
  obtain ⟨ping, openOk, writeOk, rebootOk, wakeOk, awaitOutcome⟩ := env
  cases ping with
  | Active a =>
    by_cases hat : a = target <;>
      cases hl : h.targets.lookup target.as_string <;>
        cases openOk <;> cases writeOk <;> cases rebootOk <;>
          simp [handle_run, configure, agentReboot, await_running_target, runWriteOk,
            hl, hat, transportsPreceded, Effect.isTransport]
  | Inactive =>
    cases hl : h.targets.lookup target.as_string <;>
      cases openOk <;> cases writeOk <;> cases wakeOk <;>
        simp [handle_run, configure, boot, await_running_target, runWriteOk,
          hl, transportsPreceded, Effect.isTransport]

/-- Helper: in every trace of handle_run, every transport command precedes
every await of the observed state. -/
lemma transport_before_await_run (h : Handler) (env : Env) (target : TargetId) :
    effBefore Effect.isTransport Effect.isAwait (handle_run h env target).2 = true := by
  obtain ⟨ping, openOk, writeOk, rebootOk, wakeOk, awaitOutcome⟩ := env
  cases ping with
  | Active a =>
    by_cases hat : a = target <;>
      cases hl : h.targets.lookup target.as_string <;>
        cases openOk <;> cases writeOk <;> cases rebootOk <;>
          simp [handle_run, configure, agentReboot, await_running_target,
            hl, hat, effBefore, Effect.isTransport, Effect.isAwait]
  | Inactive =>
    cases hl : h.targets.lookup target.as_string <;>
      cases openOk <;> cases writeOk <;> cases wakeOk <;>
        simp [handle_run, configure, boot, await_running_target,
          hl, effBefore, Effect.isTransport, Effect.isAwait]

/-- Helper: in every trace of handle_reboot, every transport command
precedes every await of the observed state. -/
lemma transport_before_await_reboot (h : Handler) (env : Env) :
    effBefore Effect.isTransport Effect.isAwait (handle_reboot h env).2 = true := by
  obtain ⟨ping, openOk, writeOk, rebootOk, wakeOk, awaitOutcome⟩ := env
  cases ping with
  | Active a =>
    cases rebootOk <;>
      simp [handle_reboot, agentReboot, await_running_target,
        effBefore, Effect.isTransport, Effect.isAwait]
  | Inactive =>
    cases wakeOk <;>
      simp [handle_reboot, boot, await_running,
        effBefore, Effect.isTransport, Effect.isAwait]

/-- C1: for every Run(target) action the handler processes and completes
with Ok, the write of the target's configured menu entry to the bootloader
config file occurs strictly before any transport command in the effect
trace; and in every Run or Reboot handling, every transport command (reboot
RPC or Wake-on-LAN packet) occurs strictly before the handler begins
awaiting the desired observed state. -/
theorem c1_effect_ordering (h : Handler) (env : Env) (target : TargetId) :
    ((handle_run h env target).1 = Except.ok () →
      runWriteOk h target (handle_run h env target).2 = true)
    ∧ effBefore Effect.isTransport Effect.isAwait (handle_run h env target).2 = true
    ∧ effBefore Effect.isTransport Effect.isAwait (handle_reboot h env).2 = true :=
  ⟨fun _ => run_write_before_transport h env target,
   transport_before_await_run h env target,
   transport_before_await_reboot h env⟩

/-- Witness for c1_effect_ordering: a cold boot of the target named ubuntu
on a device whose map carries it, with every external operation succeeding,
returns Ok, and the ordering properties hold on its trace. -/
theorem c1_effect_ordering_witness :
    (handle_run
        ⟨⟨"htpc"⟩, ⟨0xaa, 0xbb, 0xcc, 0xdd, 0xee, 0xff⟩, "eth0",
          [("ubuntu", ⟨"Ubuntu 22.04"⟩)], "htpc/samwise.cfg"⟩
        ⟨AgentStatus.Inactive, true, true, true, true, AwaitOutcome.reached⟩
        ⟨"ubuntu"⟩).1 = Except.ok ()
    ∧ runWriteOk
        ⟨⟨"htpc"⟩, ⟨0xaa, 0xbb, 0xcc, 0xdd, 0xee, 0xff⟩, "eth0",
          [("ubuntu", ⟨"Ubuntu 22.04"⟩)], "htpc/samwise.cfg"⟩
        ⟨"ubuntu"⟩
        (handle_run
          ⟨⟨"htpc"⟩, ⟨0xaa, 0xbb, 0xcc, 0xdd, 0xee, 0xff⟩, "eth0",
            [("ubuntu", ⟨"Ubuntu 22.04"⟩)], "htpc/samwise.cfg"⟩
          ⟨AgentStatus.Inactive, true, true, true, true, AwaitOutcome.reached⟩
          ⟨"ubuntu"⟩).2 = true := by
  refine ⟨rfl, ?_⟩
  exact (c1_effect_ordering
    ⟨⟨"htpc"⟩, ⟨0xaa, 0xbb, 0xcc, 0xdd, 0xee, 0xff⟩, "eth0",
      [("ubuntu", ⟨"Ubuntu 22.04"⟩)], "htpc/samwise.cfg"⟩
    ⟨AgentStatus.Inactive, true, true, true, true, AwaitOutcome.reached⟩
    ⟨"ubuntu"⟩).1 rfl

/-- C3: handling Run(target) when the initial ping reports the device
already active on that same target is a no-op returning Ok whose only
effect is the initial ping itself: no config file operation, no reboot RPC,
no Wake-on-LAN packet, no await (and the handler never publishes on the
state channel at all; publications come only from the poller). -/
theorem c3_run_noop (h : Handler) (env : Env) (target : TargetId)
    (hping : env.ping = AgentStatus.Active target) :
    handle_run h env target
      = (Except.ok (), [Effect.pingAgent (AgentStatus.Active target)]) := by
  obtain ⟨ping, openOk, writeOk, rebootOk, wakeOk, awaitOutcome⟩ := env
  simp only at hping
  subst hping
  simp [handle_run]

/-- Witness for c3_run_noop at a concrete handler state and environment. -/
theorem c3_run_noop_witness :
    handle_run
        ⟨⟨"htpc"⟩, ⟨0xaa, 0xbb, 0xcc, 0xdd, 0xee, 0xff⟩, "eth0",
          [("ubuntu", ⟨"Ubuntu 22.04"⟩)], "htpc/samwise.cfg"⟩
        ⟨AgentStatus.Active ⟨"ubuntu"⟩, true, true, true, true, AwaitOutcome.reached⟩
        ⟨"ubuntu"⟩
      = (Except.ok (), [Effect.pingAgent (AgentStatus.Active ⟨"ubuntu"⟩)]) :=
  c3_run_noop
    ⟨⟨"htpc"⟩, ⟨0xaa, 0xbb, 0xcc, 0xdd, 0xee, 0xff⟩, "eth0",
      [("ubuntu", ⟨"Ubuntu 22.04"⟩)], "htpc/samwise.cfg"⟩
    ⟨AgentStatus.Active ⟨"ubuntu"⟩, true, true, true, true, AwaitOutcome.reached⟩
    ⟨"ubuntu"⟩ rfl

/-- C10: when the initial ping did not report the requested target as
already active, so the handler proceeds to configure, and the bootloader
config write fails (unknown target, open failure, or write failure), the
handler returns exactly that error and its trace contains no transport
command and no await of the observed state. -/
theorem c10_config_failure_stops (h : Handler) (env : Env) (target : TargetId)
    (e : HandlerError)
    (hnp : env.ping ≠ AgentStatus.Active target)
    (hfail : (configure h env target).1 = Except.error e) :
    (handle_run h env target).1 = Except.error e
    ∧ (handle_run h env target).2.all
        (fun x => !x.isTransport && !x.isAwait) = true := by
  have htr := configure_trace_clean h env target
  rcases hconf : configure h env target with ⟨r1, t1⟩
  rw [hconf] at hfail htr
  simp only at hfail htr
  subst hfail
  have hclean : ∀ x ∈ t1, x.isTransport = false ∧ x.isAwait = false := by
    intro x hx
    have hx2 := List.all_eq_true.mp htr x hx
    simp only [Bool.and_eq_true, Bool.not_eq_true'] at hx2
    exact hx2
  obtain ⟨ping, openOk, writeOk, rebootOk, wakeOk, awaitOutcome⟩ := env
  cases ping with
  | Active a =>
    have hne : ¬(a = target) := by
      intro hcontra
      exact hnp (by simp [hcontra])
    constructor
    · simp [handle_run, hne, hconf]
    · simp only [handle_run, hne, if_false, hconf]
      simp [Effect.isTransport, Effect.isAwait]
      intro x hx
      exact hclean x hx
  | Inactive =>
    constructor
    · simp [handle_run, hconf]
    · simp only [handle_run, hconf]
      simp [Effect.isTransport, Effect.isAwait]
      intro x hx
      exact hclean x hx

/-- Witness for c10_config_failure_stops: a Run of a target absent from the
device's map, with the device off, fails with the unknown-target error and
performs neither transport nor await. -/
theorem c10_config_failure_stops_witness :
    (handle_run
        ⟨⟨"htpc"⟩, ⟨0xaa, 0xbb, 0xcc, 0xdd, 0xee, 0xff⟩, "eth0",
          [("ubuntu", ⟨"Ubuntu 22.04"⟩)], "htpc/samwise.cfg"⟩
        ⟨AgentStatus.Inactive, true, true, true, true, AwaitOutcome.reached⟩
        ⟨"windows"⟩).1
      = Except.error (HandlerError.unknownTarget ⟨"windows"⟩)
    ∧ (handle_run
        ⟨⟨"htpc"⟩, ⟨0xaa, 0xbb, 0xcc, 0xdd, 0xee, 0xff⟩, "eth0",
          [("ubuntu", ⟨"Ubuntu 22.04"⟩)], "htpc/samwise.cfg"⟩
        ⟨AgentStatus.Inactive, true, true, true, true, AwaitOutcome.reached⟩
        ⟨"windows"⟩).2.all
        (fun x => !x.isTransport && !x.isAwait) = true :=
  c10_config_failure_stops
    ⟨⟨"htpc"⟩, ⟨0xaa, 0xbb, 0xcc, 0xdd, 0xee, 0xff⟩, "eth0",
      [("ubuntu", ⟨"Ubuntu 22.04"⟩)], "htpc/samwise.cfg"⟩
    ⟨AgentStatus.Inactive, true, true, true, true, AwaitOutcome.reached⟩
    ⟨"windows"⟩ (HandlerError.unknownTarget ⟨"windows"⟩)
    (by decide) rfl

/-! ## Theorems for claims about the action channel (C4), the poller (C6),
the config writer (C7) and the run route (C8) -/

/-- C4 as stated is false on the code: an action counts as in flight from
submission until the handler completes it, but the tokio mpsc slot is freed
as soon as the handler pops the action in Handler.process. Concretely,
starting from the capacity-1 channel of Device.start, submitting Reboot and
letting the handler pop it reaches a state in which Reboot is still in
flight (being handled) yet a second try_send succeeds instead of failing
with a busy error. -/
theorem c4_counterexample :
    SysStep ⟨newActionChannel, HandlerPhase.idle⟩
      ⟨⟨1, [Action.Reboot]⟩, HandlerPhase.idle⟩
    ∧ SysStep ⟨⟨1, [Action.Reboot]⟩, HandlerPhase.idle⟩
      ⟨⟨1, []⟩, HandlerPhase.handling Action.Reboot⟩
    ∧ inFlight Action.Reboot ⟨⟨1, []⟩, HandlerPhase.handling Action.Reboot⟩
    ∧ ActionChannel.trySend ⟨1, []⟩ Action.Suspend
        = Except.ok ⟨1, [Action.Suspend]⟩ := by
  refine ⟨?_, ?_, Or.inr rfl, rfl⟩
  · exact SysStep.submit ⟨newActionChannel, HandlerPhase.idle⟩ Action.Reboot
      ⟨1, [Action.Reboot]⟩ rfl
  · exact SysStep.pop ⟨⟨1, [Action.Reboot]⟩, HandlerPhase.idle⟩ Action.Reboot [] rfl rfl

/-- C4 amended: the per-device action channel is created with capacity 1 and
submission is a non-blocking try-send: while the previously submitted action
is still queued (not yet popped by the handler), a second action() call
fails synchronously with the full-channel (busy) error, returning only the
error so the queued action is untouched. Once the handler has popped the
action, the slot is free and a further submission can succeed even though
handling is still in progress. -/
theorem c4_busy_while_queued (c : ActionChannel) (b : Action)
    (hcap : c.capacity = 1) (hq : c.queue ≠ []) :
    newActionChannel.capacity = 1
    ∧ ActionChannel.trySend c b = Except.error TrySendError.full := by
  refine ⟨rfl, ?_⟩
  have hlen : 0 < c.queue.length := List.length_pos.mpr hq
  rw [ActionChannel.trySend, hcap, if_neg]
  omega

/-- Witness for c4_busy_while_queued on the capacity-1 channel holding one
queued Reboot action. -/
theorem c4_busy_while_queued_witness :
    newActionChannel.capacity = 1
    ∧ ActionChannel.trySend ⟨1, [Action.Reboot]⟩ Action.Suspend
        = Except.error TrySendError.full :=
  c4_busy_while_queued ⟨1, [Action.Reboot]⟩ Action.Suspend rfl (by decide)

/-- C6: every value the state poller publishes is Running of some target or
Off; the poller never publishes Unknown, so Unknown can only be the initial
value the state channel is created with in Device.start. -/
theorem c6_poller_never_unknown (pings : List AgentStatus) (s : State)
    (hs : s ∈ state_poller pings) :
    (∃ t, s = State.Running t) ∨ s = State.Off := by
  simp only [state_poller, List.mem_map] at hs
  rcases hs with ⟨ping, _, rfl⟩
  cases ping with
  | Active t => exact Or.inl ⟨t, rfl⟩
  | Inactive => exact Or.inr rfl

/-- Witness for c6_poller_never_unknown: the publication for a failed ping
is Off. -/
theorem c6_poller_never_unknown_witness :
    (∃ t, State.Off = State.Running t) ∨ State.Off = State.Off :=
  c6_poller_never_unknown [AgentStatus.Inactive] State.Off (by simp [state_poller, poller_state])

/-- C7: for every target present in the handler's target map, configure
opens the GRUB config file with write and truncate set and create unset (so
a missing file is an error, never created) and writes exactly the two lines
set samwise_entry="menu entry" and export samwise_entry, each ended by a
line feed and with nothing else; for every target not in the map it fails
with the unknown-target error and performs no file operation. -/
theorem c7_configure_contract (h : Handler) (env : Env) (target : TargetId) :
    (∀ tc : TargetConfiguration, h.targets.lookup target.as_string = some tc →
      env.openOk = true → env.writeOk = true →
      configure h env target = (Except.ok (),
        [Effect.openConfig h.grub_config true true false,
         Effect.writeConfig h.grub_config
           ("set " ++ GRUB_MENU_ENTRY_VAR ++ "=\"" ++ tc.menu_entry
             ++ "\"\nexport " ++ GRUB_MENU_ENTRY_VAR ++ "\n")]))
    ∧ (h.targets.lookup target.as_string = none →
      configure h env target = (Except.error (HandlerError.unknownTarget target), [])) := by
  constructor
  · intro tc hl ho hw
    simp [configure, hl, ho, hw, grubConfigContents]
  · intro hl
    simp [configure, hl]

/-- Witness for c7_configure_contract: both branches at concrete inputs, a
mapped target written in full and an unmapped target rejected untouched. -/
theorem c7_configure_contract_witness :
    configure
        ⟨⟨"htpc"⟩, ⟨0xaa, 0xbb, 0xcc, 0xdd, 0xee, 0xff⟩, "eth0",
          [("ubuntu", ⟨"Ubuntu 22.04"⟩)], "htpc/samwise.cfg"⟩
        ⟨AgentStatus.Inactive, true, true, true, true, AwaitOutcome.reached⟩
        ⟨"ubuntu"⟩
      = (Except.ok (),
        [Effect.openConfig "htpc/samwise.cfg" true true false,
         Effect.writeConfig "htpc/samwise.cfg"
           ("set " ++ GRUB_MENU_ENTRY_VAR ++ "=\"" ++ "Ubuntu 22.04"
             ++ "\"\nexport " ++ GRUB_MENU_ENTRY_VAR ++ "\n")])
    ∧ configure
        ⟨⟨"htpc"⟩, ⟨0xaa, 0xbb, 0xcc, 0xdd, 0xee, 0xff⟩, "eth0",
          [("ubuntu", ⟨"Ubuntu 22.04"⟩)], "htpc/samwise.cfg"⟩
        ⟨AgentStatus.Inactive, true, true, true, true, AwaitOutcome.reached⟩
        ⟨"windows"⟩
      = (Except.error (HandlerError.unknownTarget ⟨"windows"⟩), []) :=
  ⟨(c7_configure_contract
      ⟨⟨"htpc"⟩, ⟨0xaa, 0xbb, 0xcc, 0xdd, 0xee, 0xff⟩, "eth0",
        [("ubuntu", ⟨"Ubuntu 22.04"⟩)], "htpc/samwise.cfg"⟩
      ⟨AgentStatus.Inactive, true, true, true, true, AwaitOutcome.reached⟩
      ⟨"ubuntu"⟩).1 ⟨"Ubuntu 22.04"⟩ rfl rfl rfl,
   (c7_configure_contract
      ⟨⟨"htpc"⟩, ⟨0xaa, 0xbb, 0xcc, 0xdd, 0xee, 0xff⟩, "eth0",
        [("ubuntu", ⟨"Ubuntu 22.04"⟩)], "htpc/samwise.cfg"⟩
      ⟨AgentStatus.Inactive, true, true, true, true, AwaitOutcome.reached⟩
      ⟨"windows"⟩).2 rfl⟩

/-- C8 as stated is false on the code: the run route submits the action
without ever consulting the target map, and replies success as soon as the
try-send is accepted. Concretely, for a known device whose target map is
empty (so the requested target ubuntu is certainly not in it) and whose
action channel has room, the caller receives the 200 success response, not
a 503. The unknown-target error only arises later inside the handler,
where it is logged. -/
theorem c8_counterexample :
    (([] : List (String × TargetConfiguration)).lookup "ubuntu" = none)
    ∧ run_route [("d1", ⟨newActionChannel, []⟩)] "d1" "ubuntu"
        = HttpResponse.success 200 "d1" "run ubuntu" := by
  refine ⟨rfl, ?_⟩
  rfl

/-- C8 amended: the response of the run route for a known device is a
function of the try-send outcome alone and is independent of the device's
target map: 200 success when the action channel accepts the submission (the
unknown-target failure is then detected asynchronously by the handler and
only logged), 503 only when submission itself fails. -/
theorem c8_run_route_submission_only (devices : List (String × DeviceEntry))
    (deviceId requestTarget : String) (entry : DeviceEntry)
    (hdev : lookupDevice devices deviceId = some entry) :
    run_route devices deviceId requestTarget =
      match entry.chan.trySend (Action.Run (TargetId.new requestTarget)) with
      | Except.ok _ => HttpResponse.success 200 deviceId ("run " ++ requestTarget)
      | Except.error _ =>
          HttpResponse.failure 503 ("Operation on " ++ deviceId ++ " failed") := by
  rw [run_route, hdev]
  rcases h2 : entry.chan.trySend (Action.Run (TargetId.new requestTarget)) with c | err <;>
    simp only [TargetId.new] at h2 <;>
      simp [h2, Action.display, TargetId.new, TargetId.as_string]

/-- Witness for c8_run_route_submission_only: a known device with a full
capacity-1 queue yields the 503 failure, and one with room yields 200. -/
theorem c8_run_route_submission_only_witness :
    run_route [("d1", ⟨⟨1, [Action.Reboot]⟩, []⟩)] "d1" "ubuntu"
      = HttpResponse.failure 503 ("Operation on " ++ "d1" ++ " failed")
    ∧ run_route [("d2", ⟨newActionChannel, []⟩)] "d2" "ubuntu"
      = HttpResponse.success 200 "d2" ("run " ++ "ubuntu") := by
  constructor
  · exact c8_run_route_submission_only [("d1", ⟨⟨1, [Action.Reboot]⟩, []⟩)] "d1" "ubuntu"
      ⟨⟨1, [Action.Reboot]⟩, []⟩ rfl
  · exact c8_run_route_submission_only [("d2", ⟨newActionChannel, []⟩)] "d2" "ubuntu"
      ⟨newActionChannel, []⟩ rfl

end Samwise
